import Mathlib

/-!
Verification of the rule-based gesture classification core of the
GestureRecognition_mobidev repository.

The embedding follows `gesture_recognition/gesture_classifier.py`,
`gesture_recognition/ar_interface.py` and `gesture_recognition/hand_tracker.py`.
Coordinates are modelled as rationals.  The Python code compares Euclidean
distances `np.sqrt(dx^2 + dy^2)` against nonnegative thresholds; since
`sqrt s < t ↔ s < t^2` and `sqrt s > t * sqrt u ↔ s > t^2 * u` for
nonnegative values, the embedding keeps the squared distances and compares
them against squared thresholds, which is an exact translation of the
source comparisons (proved below in `thumb_sqdist_sqrt_equiv` and used for
claim C5).
-/

namespace GestureRec

/-- One hand landmark as produced by the detector: the dictionary
`{'x': .., 'y': .., 'z': ..}` built in `hand_tracker.detect_hands`. -/
structure Landmark where
  x : ℚ
  y : ℚ
  z : ℚ
deriving DecidableEq

/-- `GestureType` enumeration from `gesture_classifier.py`. -/
inductive GestureType where
  | NONE
  | POINT
  | OPEN_PALM
  | FIST
  | THUMBS_UP
  | PEACE
  | OK_SIGN
  | PINCH
deriving DecidableEq

/-- The dictionary returned by `classify_gesture` /
`_analyze_gesture_pattern`: gesture type, confidence, description. -/
structure GestureResult where
  gesture : GestureType
  confidence : ℚ
  description : String
deriving DecidableEq

/-- The finger-state dictionary built by `_get_finger_states`. -/
structure FingerStates where
  thumb : Bool
  index : Bool
  middle : Bool
  ring : Bool
  pinky : Bool
deriving DecidableEq

/-- Python list indexing `landmarks[i]`, total with a default landmark;
`classify_gesture` only indexes under the `len >= 21` guard, and
`classify_gesture_opt` below models indexing as genuinely fallible. -/
def nth (landmarks : List Landmark) (i : Nat) : Landmark :=
  landmarks.getD i ⟨0, 0, 0⟩

/-- Squared 2-D Euclidean distance `(p.x - q.x)^2 + (p.y - q.y)^2`;
the sources always compare `np.sqrt` of this against a threshold. -/
def sqDist (p q : Landmark) : ℚ :=
  (p.x - q.x) ^ 2 + (p.y - q.y) ^ 2

/-- `GestureClassifier.__init__`: the instance carries only
`confidence_threshold` (default 0.7), which `classify_gesture` never reads. -/
structure GestureClassifier where
  confidence_threshold : ℚ
deriving DecidableEq

/-- `GestureClassifier._is_thumb_extended`: thumb tip-to-wrist distance
strictly greater than 1.2 times MCP-to-wrist distance, stated on squared
distances (`tip_to_wrist > mcp_to_wrist * 1.2` squared on both sides). -/
def is_thumb_extended (landmarks : List Landmark) : Bool :=
  let thumb_tip := nth landmarks 4
  let thumb_mcp := nth landmarks 1
  let wrist := nth landmarks 0
  decide (sqDist thumb_tip wrist > sqDist thumb_mcp wrist * (1.2 : ℚ) ^ 2)

/-- `GestureClassifier._get_finger_states`: thumb via
`_is_thumb_extended`; each other finger extended iff its tip landmark's y
is strictly below (less than) its MCP joint's y. -/
def get_finger_states (landmarks : List Landmark) : FingerStates :=
  { thumb := is_thumb_extended landmarks
    index := decide ((nth landmarks 8).y < (nth landmarks 5).y)
    middle := decide ((nth landmarks 12).y < (nth landmarks 9).y)
    ring := decide ((nth landmarks 16).y < (nth landmarks 13).y)
    pinky := decide ((nth landmarks 20).y < (nth landmarks 17).y) }

/-- `GestureClassifier._is_pointing_gesture`. -/
def is_pointing_gesture (fs : FingerStates) : Bool :=
  fs.index && !fs.middle && !fs.ring && !fs.pinky

/-- `GestureClassifier._is_open_palm`: `all(finger_states.values())`. -/
def is_open_palm (fs : FingerStates) : Bool :=
  fs.thumb && fs.index && fs.middle && fs.ring && fs.pinky

/-- `GestureClassifier._is_fist`: `not any(finger_states.values())`. -/
def is_fist (fs : FingerStates) : Bool :=
  !(fs.thumb || fs.index || fs.middle || fs.ring || fs.pinky)

/-- `GestureClassifier._is_thumbs_up`. -/
def is_thumbs_up (fs : FingerStates) : Bool :=
  fs.thumb && !fs.index && !fs.middle && !fs.ring && !fs.pinky

/-- `GestureClassifier._is_peace_sign`. -/
def is_peace_sign (fs : FingerStates) : Bool :=
  fs.index && fs.middle && !fs.ring && !fs.pinky

/-- `GestureClassifier._is_ok_sign`: middle, ring, pinky all extended and
thumb tip (landmark 4) within 2-D distance 0.05 of index tip (landmark 8),
the distance test stated on squares. -/
def is_ok_sign (landmarks : List Landmark) (fs : FingerStates) : Bool :=
  if !fs.middle || !fs.ring || !fs.pinky then
    false
  else
    decide (sqDist (nth landmarks 4) (nth landmarks 8) < (0.05 : ℚ) ^ 2)

/-- `GestureClassifier._is_pinch_gesture`: thumb tip within 2-D
distance 0.03 of index tip, the distance test stated on squares. -/
def is_pinch_gesture (landmarks : List Landmark) : Bool :=
  decide (sqDist (nth landmarks 4) (nth landmarks 8) < (0.03 : ℚ) ^ 2)

/-- `GestureClassifier._analyze_gesture_pattern`: the fixed-priority
if/elif chain. -/
def analyze_gesture_pattern (landmarks : List Landmark)
    (fs : FingerStates) : GestureResult :=
  if is_pointing_gesture fs then
    ⟨GestureType.POINT, 0.9, "Pointing gesture detected"⟩
  else if is_open_palm fs then
    ⟨GestureType.OPEN_PALM, 0.9, "Open palm gesture detected"⟩
  else if is_fist fs then
    ⟨GestureType.FIST, 0.9, "Fist gesture detected"⟩
  else if is_thumbs_up fs then
    ⟨GestureType.THUMBS_UP, 0.8, "Thumbs up gesture detected"⟩
  else if is_peace_sign fs then
    ⟨GestureType.PEACE, 0.8, "Peace sign detected"⟩
  else if is_ok_sign landmarks fs then
    ⟨GestureType.OK_SIGN, 0.8, "OK sign detected"⟩
  else if is_pinch_gesture landmarks then
    ⟨GestureType.PINCH, 0.8, "Pinch gesture detected"⟩
  else
    ⟨GestureType.NONE, 0.0, "No recognized gesture"⟩

/-- `GestureClassifier.classify_gesture`: guard on fewer than 21
landmarks, then finger-state derivation and pattern analysis. -/
def GestureClassifier.classify_gesture (_self : GestureClassifier)
    (landmarks : List Landmark) : GestureResult :=
  if landmarks.length < 21 then
    ⟨GestureType.NONE, 0.0, "No valid hand detected"⟩
  else
    analyze_gesture_pattern landmarks (get_finger_states landmarks)

/-! Fallible-indexing model of the classifier: Python raises `IndexError`
on out-of-bounds list indexing, so each `landmarks[i]` is modelled as
`List.get?` inside `Option`; `none` stands for a raised failure.  Claim C8
proves this model never returns `none`, i.e. every index access in
`classify_gesture` is covered by the length guard. -/

/-- Fallible `landmarks[i]`. -/
def nthOpt (landmarks : List Landmark) (i : Nat) : Option Landmark :=
  landmarks.get? i

/-- `_is_thumb_extended` with fallible indexing. -/
def is_thumb_extended_opt (landmarks : List Landmark) : Option Bool := do
  let thumb_tip ← nthOpt landmarks 4
  let thumb_mcp ← nthOpt landmarks 1
  let wrist ← nthOpt landmarks 0
  pure (decide (sqDist thumb_tip wrist > sqDist thumb_mcp wrist * (1.2 : ℚ) ^ 2))

/-- `_get_finger_states` with fallible indexing. -/
def get_finger_states_opt (landmarks : List Landmark) : Option FingerStates := do
  let th ← is_thumb_extended_opt landmarks
  let i8 ← nthOpt landmarks 8
  let i5 ← nthOpt landmarks 5
  let m12 ← nthOpt landmarks 12
  let m9 ← nthOpt landmarks 9
  let r16 ← nthOpt landmarks 16
  let r13 ← nthOpt landmarks 13
  let p20 ← nthOpt landmarks 20
  let p17 ← nthOpt landmarks 17
  pure { thumb := th
         index := decide (i8.y < i5.y)
         middle := decide (m12.y < m9.y)
         ring := decide (r16.y < r13.y)
         pinky := decide (p20.y < p17.y) }

/-- `_is_ok_sign` with fallible indexing. -/
def is_ok_sign_opt (landmarks : List Landmark) (fs : FingerStates) :
    Option Bool :=
  if !fs.middle || !fs.ring || !fs.pinky then
    pure false
  else do
    let thumb_tip ← nthOpt landmarks 4
    let index_tip ← nthOpt landmarks 8
    pure (decide (sqDist thumb_tip index_tip < (0.05 : ℚ) ^ 2))

/-- `_is_pinch_gesture` with fallible indexing. -/
def is_pinch_gesture_opt (landmarks : List Landmark) : Option Bool := do
  let thumb_tip ← nthOpt landmarks 4
  let index_tip ← nthOpt landmarks 8
  pure (decide (sqDist thumb_tip index_tip < (0.03 : ℚ) ^ 2))

/-- `_analyze_gesture_pattern` with fallible indexing: the predicate
evaluation short-circuits exactly as the Python if/elif chain does. -/
def analyze_gesture_pattern_opt (landmarks : List Landmark)
    (fs : FingerStates) : Option GestureResult :=
  if is_pointing_gesture fs then
    pure ⟨GestureType.POINT, 0.9, "Pointing gesture detected"⟩
  else if is_open_palm fs then
    pure ⟨GestureType.OPEN_PALM, 0.9, "Open palm gesture detected"⟩
  else if is_fist fs then
    pure ⟨GestureType.FIST, 0.9, "Fist gesture detected"⟩
  else if is_thumbs_up fs then
    pure ⟨GestureType.THUMBS_UP, 0.8, "Thumbs up gesture detected"⟩
  else if is_peace_sign fs then
    pure ⟨GestureType.PEACE, 0.8, "Peace sign detected"⟩
  else do
    let ok ← is_ok_sign_opt landmarks fs
    if ok then
      pure ⟨GestureType.OK_SIGN, 0.8, "OK sign detected"⟩
    else do
      let pinch ← is_pinch_gesture_opt landmarks
      if pinch then
        pure ⟨GestureType.PINCH, 0.8, "Pinch gesture detected"⟩
      else
        pure ⟨GestureType.NONE, 0.0, "No recognized gesture"⟩

/-- `classify_gesture` with fallible indexing. -/
def GestureClassifier.classify_gesture_opt (_self : GestureClassifier)
    (landmarks : List Landmark) : Option GestureResult :=
  if landmarks.length < 21 then
    pure ⟨GestureType.NONE, 0.0, "No valid hand detected"⟩
  else do
    let fs ← get_finger_states_opt landmarks
    analyze_gesture_pattern_opt landmarks fs

/-! Session controller (`ar_interface.py`) and hand tracker
(`hand_tracker.py`) model.  Camera frames and the black-box landmark
detector are external collaborators: `process_frame` takes the detector's
output (the list of detected hands) as an argument.  The camera handle and
the MediaPipe `Hands` handle are modelled by release/closed flags; callback
invocation is modelled by reporting which gesture's callback fired. -/

/-- The cv2 camera handle: `release()` sets the flag. -/
structure Camera where
  released : Bool
deriving DecidableEq

/-- The MediaPipe `Hands` handle owned by `HandTracker`: `close()` sets
the flag. -/
structure MPHands where
  closed : Bool
deriving DecidableEq

/-- `HandTracker`: its `hands` field, guarded by the `if self.hands:`
truthiness test in `HandTracker.close`. -/
structure HandTracker where
  hands : Option MPHands
deriving DecidableEq

/-- `HandTracker.close`: `if self.hands: self.hands.close()`. -/
def HandTracker.close (t : HandTracker) : HandTracker :=
  { t with hands := t.hands.map (fun h => { h with closed := true }) }

/-- One entry of `detect_hands`' returned list: the dictionary
`{'landmarks': .., 'raw': ..}`; only `landmarks` is consumed by the core. -/
structure Hand where
  landmarks : List Landmark
deriving DecidableEq

/-- The extended result dictionary built by `process_frame`
(`gesture_info`), carrying `hand_count` alongside the classifier fields. -/
structure GestureInfo where
  gesture : GestureType
  confidence : ℚ
  description : String
  hand_count : Nat
deriving DecidableEq

/-- `ARInterface` state: camera handle, running flag, tracker, callback
registry (modelled by which gesture types have a registered callback),
current gesture session state and the owned classifier. -/
structure ARInterface where
  cap : Option Camera
  is_running : Bool
  hand_tracker : HandTracker
  callbacks : GestureType → Bool
  current_gesture : GestureType
  gesture_confidence : ℚ
  gesture_classifier : GestureClassifier

/-- `ARInterface.__init__`: no camera yet, not running, fresh tracker,
empty callback registry, NONE gesture at confidence 0, default classifier. -/
def ARInterface.init : ARInterface :=
  { cap := none
    is_running := false
    hand_tracker := ⟨some ⟨false⟩⟩
    callbacks := fun _ => false
    current_gesture := GestureType.NONE
    gesture_confidence := 0
    gesture_classifier := ⟨0.7⟩ }

/-- `ARInterface.stop_camera`: clears the running flag and releases the
camera handle when present (`if self.cap:`). -/
def ARInterface.stop_camera (s : ARInterface) : ARInterface :=
  { s with is_running := false
           cap := s.cap.map (fun c => { c with released := true }) }

/-- `ARInterface.cleanup`: `stop_camera` then, guarded by
`if self.hand_tracker:`, `hand_tracker.close()`. -/
def ARInterface.cleanup (s : ARInterface) : ARInterface :=
  let s1 := s.stop_camera
  { s1 with hand_tracker := s1.hand_tracker.close }

/-- `ARInterface.register_gesture_callback`: inserts or overwrites the
callback for the given gesture type. -/
def ARInterface.register_gesture_callback (s : ARInterface)
    (g : GestureType) : ARInterface :=
  { s with callbacks := fun g2 => if g2 = g then true else s.callbacks g2 }

/-- `ARInterface.process_frame`, taking the detector's per-frame output
`hands` as input.  Returns the updated state, the `gesture_info`
dictionary, and `some g` when the registered callback for gesture `g`
fired (confidence strictly above 0.7 and `g` registered), `none`
otherwise. -/
def ARInterface.process_frame (s : ARInterface) (hands : List Hand) :
    ARInterface × GestureInfo × Option GestureType :=
  match hands with
  | [] => (s, ⟨GestureType.NONE, 0.0, "No hands detected", hands.length⟩, none)
  | h :: _ =>
    let r := s.gesture_classifier.classify_gesture h.landmarks
    let info : GestureInfo := ⟨r.gesture, r.confidence, r.description, hands.length⟩
    let s2 := { s with current_gesture := r.gesture
                       gesture_confidence := r.confidence }
    let fired : Option GestureType :=
      if s2.gesture_confidence > 0.7 ∧ s2.callbacks s2.current_gesture = true then
        some s2.current_gesture
      else
        none
    (s2, info, fired)

/-- `ARInterface.get_current_gesture`: pure read of the session state. -/
def ARInterface.get_current_gesture (s : ARInterface) : GestureType × ℚ :=
  (s.current_gesture, s.gesture_confidence)

/-- Stated from the spec for comparison with the code: the fixed
per-label confidence constant of each gesture class (0.9 for POINT,
OPEN_PALM, FIST; 0.8 for THUMBS_UP, PEACE, OK_SIGN, PINCH; 0.0 for NONE). -/
def spec_confidence_of : GestureType → ℚ
  | GestureType.NONE => 0.0
  | GestureType.POINT => 0.9
  | GestureType.OPEN_PALM => 0.9
  | GestureType.FIST => 0.9
  | GestureType.THUMBS_UP => 0.8
  | GestureType.PEACE => 0.8
  | GestureType.OK_SIGN => 0.8
  | GestureType.PINCH => 0.8

/-- A concrete 21-landmark skeleton: all five fingers derived extended
(open palm) while thumb tip and index tip are 0.02 apart, so it also
passes the OK_SIGN and PINCH distance tests. -/
def openPalmPinchSkel : List Landmark :=
  [⟨0.5, 1, 0⟩,
   ⟨0.5, 0.9, 0⟩, ⟨0.5, 0.85, 0⟩, ⟨0.5, 0.8, 0⟩, ⟨0.5, 0.7, 0⟩,
   ⟨0.5, 0.9, 0⟩, ⟨0.5, 0.85, 0⟩, ⟨0.5, 0.8, 0⟩, ⟨0.52, 0.7, 0⟩,
   ⟨0.5, 0.9, 0⟩, ⟨0.5, 0.8, 0⟩, ⟨0.5, 0.7, 0⟩, ⟨0.5, 0.6, 0⟩,
   ⟨0.5, 0.9, 0⟩, ⟨0.5, 0.8, 0⟩, ⟨0.5, 0.7, 0⟩, ⟨0.5, 0.6, 0⟩,
   ⟨0.5, 0.9, 0⟩, ⟨0.5, 0.8, 0⟩, ⟨0.5, 0.7, 0⟩, ⟨0.5, 0.6, 0⟩]

/-- A concrete 21-landmark skeleton: middle, ring and pinky derived
extended, thumb and index not extended, thumb tip and index tip 0.01
apart — passes both the OK_SIGN and PINCH distance tests but not the
open-palm pattern. -/
def okSignSkel : List Landmark :=
  [⟨0.5, 1, 0⟩,
   ⟨0.5, 0.9, 0⟩, ⟨0.5, 0.92, 0⟩, ⟨0.5, 0.94, 0⟩, ⟨0.5, 0.95, 0⟩,
   ⟨0.5, 0.9, 0⟩, ⟨0.5, 0.92, 0⟩, ⟨0.5, 0.93, 0⟩, ⟨0.5, 0.94, 0⟩,
   ⟨0.5, 0.9, 0⟩, ⟨0.5, 0.8, 0⟩, ⟨0.5, 0.7, 0⟩, ⟨0.5, 0.6, 0⟩,
   ⟨0.5, 0.9, 0⟩, ⟨0.5, 0.8, 0⟩, ⟨0.5, 0.7, 0⟩, ⟨0.5, 0.6, 0⟩,
   ⟨0.5, 0.9, 0⟩, ⟨0.5, 0.8, 0⟩, ⟨0.5, 0.7, 0⟩, ⟨0.5, 0.6, 0⟩]

/-- A concrete 21-landmark skeleton: only the index finger derived
extended (pointing pose); the thumb fails the 1.2-ratio test. -/
def pointSkel : List Landmark :=
  [⟨0.5, 1, 0⟩,
   ⟨0.5, 0.9, 0⟩, ⟨0.5, 0.92, 0⟩, ⟨0.5, 0.94, 0⟩, ⟨0.5, 0.95, 0⟩,
   ⟨0.5, 0.9, 0⟩, ⟨0.5, 0.8, 0⟩, ⟨0.5, 0.6, 0⟩, ⟨0.5, 0.5, 0⟩,
   ⟨0.5, 0.9, 0⟩, ⟨0.5, 0.92, 0⟩, ⟨0.5, 0.94, 0⟩, ⟨0.5, 0.95, 0⟩,
   ⟨0.5, 0.9, 0⟩, ⟨0.5, 0.92, 0⟩, ⟨0.5, 0.94, 0⟩, ⟨0.5, 0.95, 0⟩,
   ⟨0.5, 0.9, 0⟩, ⟨0.5, 0.92, 0⟩, ⟨0.5, 0.94, 0⟩, ⟨0.5, 0.95, 0⟩]

/-- `pointSkel` with every z-coordinate shifted and an extra 22nd
landmark appended: agrees with `pointSkel` in x and y on indices 0–20. -/
def pointSkelAlt : List Landmark :=
  (pointSkel.map fun p => ⟨p.x, p.y, p.z + 1⟩) ++ [⟨0, 0, 0⟩]

end GestureRec

namespace GestureRec

/-- C1: for every landmark list with fewer than 21 entries, including the
empty list, `classify_gesture` returns exactly the NONE / 0.0 /
"No valid hand detected" result, for any classifier instance. -/
theorem classify_short_skeleton_is_none (c : GestureClassifier)
    (landmarks : List Landmark) (h : landmarks.length < 21) :
    c.classify_gesture landmarks
      = ⟨GestureType.NONE, 0.0, "No valid hand detected"⟩ := by
  simp [GestureClassifier.classify_gesture, h]

/-- C1 witness: the empty skeleton is shorter than 21 and classifies to
the NONE result. -/
theorem classify_short_skeleton_is_none_witness :
    (List.length ([] : List Landmark) < 21) ∧
    GestureClassifier.classify_gesture ⟨0.7⟩ ([] : List Landmark)
      = ⟨GestureType.NONE, 0.0, "No valid hand detected"⟩ :=
  ⟨by decide, classify_short_skeleton_is_none ⟨0.7⟩ [] (by decide)⟩

/-- C4: a `process_frame` call with zero detected hands returns exactly
the NONE / 0.0 / "No hands detected" / hand_count 0 result, dispatches no
callback, leaves the session state unchanged, and hence
`get_current_gesture` still reports the values set by the most recent
frame that had a detected hand. -/
theorem process_frame_no_hands (s : ARInterface) :
    s.process_frame []
        = (s, ⟨GestureType.NONE, 0.0, "No hands detected", 0⟩, none) ∧
    (s.process_frame []).1.get_current_gesture = s.get_current_gesture ∧
    ∀ (h : Hand) (t : List Hand),
      (((s.process_frame (h :: t)).1.process_frame []).1.get_current_gesture)
        = ((s.gesture_classifier.classify_gesture h.landmarks).gesture,
           (s.gesture_classifier.classify_gesture h.landmarks).confidence) :=
  ⟨rfl, rfl, fun _ _ => rfl⟩

/-- C3: on a frame with at least one detected hand, the dispatched
callback is `some g` exactly when `g` is the classified gesture, its
confidence is strictly greater than 0.7, and a callback is registered for
it; confidence exactly 0.7 never fires a callback. -/
theorem process_frame_dispatch (s : ARInterface) (h : Hand) (t : List Hand) :
    (∀ g : GestureType,
      (s.process_frame (h :: t)).2.2 = some g ↔
        (g = (s.gesture_classifier.classify_gesture h.landmarks).gesture ∧
         0.7 < (s.gesture_classifier.classify_gesture h.landmarks).confidence ∧
         s.callbacks (s.gesture_classifier.classify_gesture h.landmarks).gesture
           = true)) ∧
    ((s.gesture_classifier.classify_gesture h.landmarks).confidence = 0.7 →
      (s.process_frame (h :: t)).2.2 = none) := by
  have key : (s.process_frame (h :: t)).2.2
      = if 0.7 < (s.gesture_classifier.classify_gesture h.landmarks).confidence ∧
           s.callbacks (s.gesture_classifier.classify_gesture h.landmarks).gesture
             = true
        then some (s.gesture_classifier.classify_gesture h.landmarks).gesture
        else none := rfl
  constructor
  · intro g
    rw [key]
    by_cases hc : 0.7 < (s.gesture_classifier.classify_gesture h.landmarks).confidence ∧
        s.callbacks (s.gesture_classifier.classify_gesture h.landmarks).gesture = true
    · simp [hc, eq_comm]
    · simp only [if_neg hc]
      constructor
      · intro hfalse
        exact absurd hfalse (by simp)
      · rintro ⟨-, hrest⟩
        exact absurd hrest hc
  · intro he
    rw [key, if_neg]
    rintro ⟨hlt, -⟩
    rw [he] at hlt
    exact lt_irrefl _ hlt

/-- C3 witness: with a callback registered for POINT and a pointing
skeleton detected, `process_frame` fires the POINT callback. -/
theorem process_frame_dispatch_witness :
    ((ARInterface.init.register_gesture_callback
        GestureType.POINT).process_frame [⟨pointSkel⟩]).2.2
      = some GestureType.POINT :=
  ((process_frame_dispatch
      (ARInterface.init.register_gesture_callback GestureType.POINT)
      ⟨pointSkel⟩ []).1 GestureType.POINT).2
    ⟨by with_unfolding_all decide, by with_unfolding_all decide,
     by with_unfolding_all decide⟩

/-- C9: `cleanup` is idempotent (a second call is observationally equal
to the first), always leaves the controller not running, and is safe when
`start_camera` was never invoked: from the freshly initialized state it
only closes the tracker handle, skipping the absent camera handle. -/
theorem cleanup_idempotent (s : ARInterface) :
    s.cleanup.cleanup = s.cleanup ∧
    s.cleanup.is_running = false ∧
    ARInterface.init.cleanup
      = { ARInterface.init with hand_tracker := ⟨some ⟨true⟩⟩ } := by
  obtain ⟨cap, run, ⟨hands⟩, cb, cg, gc, cls⟩ := s
  refine ⟨?_, rfl, rfl⟩
  cases cap <;> cases hands <;> rfl

/-- Helper: `_analyze_gesture_pattern` returns one of the eight fixed
result records, by exhausting the if/elif chain. -/
theorem analyze_result_cases (l : List Landmark) (fs : FingerStates) :
    analyze_gesture_pattern l fs
        = ⟨GestureType.POINT, 0.9, "Pointing gesture detected"⟩ ∨
    analyze_gesture_pattern l fs
        = ⟨GestureType.OPEN_PALM, 0.9, "Open palm gesture detected"⟩ ∨
    analyze_gesture_pattern l fs
        = ⟨GestureType.FIST, 0.9, "Fist gesture detected"⟩ ∨
    analyze_gesture_pattern l fs
        = ⟨GestureType.THUMBS_UP, 0.8, "Thumbs up gesture detected"⟩ ∨
    analyze_gesture_pattern l fs
        = ⟨GestureType.PEACE, 0.8, "Peace sign detected"⟩ ∨
    analyze_gesture_pattern l fs
        = ⟨GestureType.OK_SIGN, 0.8, "OK sign detected"⟩ ∨
    analyze_gesture_pattern l fs
        = ⟨GestureType.PINCH, 0.8, "Pinch gesture detected"⟩ ∨
    analyze_gesture_pattern l fs
        = ⟨GestureType.NONE, 0.0, "No recognized gesture"⟩ := by
  unfold analyze_gesture_pattern
  by_cases h1 : is_pointing_gesture fs = true <;>
    by_cases h2 : is_open_palm fs = true <;>
      by_cases h3 : is_fist fs = true <;>
        by_cases h4 : is_thumbs_up fs = true <;>
          by_cases h5 : is_peace_sign fs = true <;>
            by_cases h6 : is_ok_sign l fs = true <;>
              by_cases h7 : is_pinch_gesture l = true <;>
                simp [h1, h2, h3, h4, h5, h6, h7]

/-- C7: the confidence of every classification result is the fixed
per-label constant (0.9 for POINT, OPEN_PALM, FIST; 0.8 for THUMBS_UP,
PEACE, OK_SIGN, PINCH; 0.0 for NONE), is zero exactly when the gesture is
NONE, and always lies in {0, 0.8, 0.9}. -/
theorem classify_confidence_constants (c : GestureClassifier)
    (landmarks : List Landmark) :
    (c.classify_gesture landmarks).confidence
        = spec_confidence_of (c.classify_gesture landmarks).gesture ∧
    ((c.classify_gesture landmarks).confidence = 0 ↔
        (c.classify_gesture landmarks).gesture = GestureType.NONE) ∧
    ((c.classify_gesture landmarks).confidence = 0 ∨
     (c.classify_gesture landmarks).confidence = 0.8 ∨
     (c.classify_gesture landmarks).confidence = 0.9) := by
  by_cases hl : landmarks.length < 21
  · have hres : c.classify_gesture landmarks
        = ⟨GestureType.NONE, 0.0, "No valid hand detected"⟩ := by
      simp [GestureClassifier.classify_gesture, hl]
    rw [hres]
    refine ⟨by with_unfolding_all decide, by with_unfolding_all decide,
            by with_unfolding_all decide⟩
  · have hres : c.classify_gesture landmarks
        = analyze_gesture_pattern landmarks (get_finger_states landmarks) := by
      simp [GestureClassifier.classify_gesture, hl]
    rw [hres]
    rcases analyze_result_cases landmarks (get_finger_states landmarks) with
      h | h | h | h | h | h | h | h <;> rw [h] <;>
      exact ⟨by with_unfolding_all decide, by with_unfolding_all decide,
             by with_unfolding_all decide⟩

/-- Helper: the classification is POINT exactly when the derived finger
pattern passes the pointing test, and in that case the result is the
fixed POINT record. -/
theorem analyze_point_iff (l : List Landmark) (fs : FingerStates) :
    ((analyze_gesture_pattern l fs).gesture = GestureType.POINT ↔
      is_pointing_gesture fs = true) ∧
    (is_pointing_gesture fs = true →
      analyze_gesture_pattern l fs
        = ⟨GestureType.POINT, 0.9, "Pointing gesture detected"⟩) := by
  unfold analyze_gesture_pattern
  by_cases h1 : is_pointing_gesture fs = true <;>
    by_cases h2 : is_open_palm fs = true <;>
      by_cases h3 : is_fist fs = true <;>
        by_cases h4 : is_thumbs_up fs = true <;>
          by_cases h5 : is_peace_sign fs = true <;>
            by_cases h6 : is_ok_sign l fs = true <;>
              by_cases h7 : is_pinch_gesture l = true <;>
                simp [h1, h2, h3, h4, h5, h6, h7]

/-- C6: on a skeleton of at least 21 landmarks, `classify_gesture`
returns POINT if and only if the derived finger states have index
extended and middle, ring, pinky all not extended (the thumb state is
irrelevant), in which case the result is the fixed POINT record with
confidence 0.9; flipping any of those four derived booleans therefore
moves the result away from POINT. -/
theorem classify_point_iff (c : GestureClassifier)
    (landmarks : List Landmark) (hlen : 21 ≤ landmarks.length) :
    ((c.classify_gesture landmarks).gesture = GestureType.POINT ↔
      ((get_finger_states landmarks).index = true ∧
       (get_finger_states landmarks).middle = false ∧
       (get_finger_states landmarks).ring = false ∧
       (get_finger_states landmarks).pinky = false)) ∧
    (((get_finger_states landmarks).index = true ∧
      (get_finger_states landmarks).middle = false ∧
      (get_finger_states landmarks).ring = false ∧
      (get_finger_states landmarks).pinky = false) →
      c.classify_gesture landmarks
        = ⟨GestureType.POINT, 0.9, "Pointing gesture detected"⟩) := by
  have hres : c.classify_gesture landmarks
      = analyze_gesture_pattern landmarks (get_finger_states landmarks) := by
    simp [GestureClassifier.classify_gesture, Nat.not_lt.mpr hlen]
  have hpt : is_pointing_gesture (get_finger_states landmarks) = true ↔
      ((get_finger_states landmarks).index = true ∧
       (get_finger_states landmarks).middle = false ∧
       (get_finger_states landmarks).ring = false ∧
       (get_finger_states landmarks).pinky = false) := by
    simp [is_pointing_gesture, Bool.and_eq_true, Bool.not_eq_true', and_assoc]
  constructor
  · rw [hres, ← hpt]
    exact (analyze_point_iff landmarks (get_finger_states landmarks)).1
  · intro hfs
    rw [hres]
    exact (analyze_point_iff landmarks (get_finger_states landmarks)).2
      (hpt.mpr hfs)

/-- C6 witness: the concrete pointing skeleton has 21 landmarks, the
required finger pattern, and classifies to the POINT record. -/
theorem classify_point_iff_witness :
    (21 ≤ pointSkel.length) ∧
    GestureClassifier.classify_gesture ⟨0.7⟩ pointSkel
      = ⟨GestureType.POINT, 0.9, "Pointing gesture detected"⟩ :=
  ⟨by decide,
   (classify_point_iff ⟨0.7⟩ pointSkel (by decide)).2
     ⟨by with_unfolding_all decide, by with_unfolding_all decide,
      by with_unfolding_all decide, by with_unfolding_all decide⟩⟩

/-- C2 counterexample: a concrete 21-landmark skeleton that satisfies
both the OK_SIGN finger-pattern test and the tighter PINCH distance test
but classifies as OPEN_PALM (tested earlier in the chain), not OK_SIGN:
the claim as stated is false on the code. -/
theorem ok_sign_priority_counterexample :
    (21 ≤ openPalmPinchSkel.length) ∧
    is_ok_sign openPalmPinchSkel (get_finger_states openPalmPinchSkel)
      = true ∧
    is_pinch_gesture openPalmPinchSkel = true ∧
    GestureClassifier.classify_gesture ⟨0.7⟩ openPalmPinchSkel
      = ⟨GestureType.OPEN_PALM, 0.9, "Open palm gesture detected"⟩ ∧
    (GestureClassifier.classify_gesture ⟨0.7⟩ openPalmPinchSkel).gesture
      ≠ GestureType.OK_SIGN := by
  refine ⟨by decide, ?_, ?_, ?_, ?_⟩ <;> with_unfolding_all decide

/-- C2 amended: on a skeleton of at least 21 landmarks passing both the
OK_SIGN test and the tighter PINCH distance test, the result is never
PINCH; and unless the open-palm pattern (all five fingers derived
extended) matches first, the result is exactly OK_SIGN with
confidence 0.8. -/
theorem ok_sign_priority_amended (c : GestureClassifier)
    (landmarks : List Landmark) (hlen : 21 ≤ landmarks.length)
    (hok : is_ok_sign landmarks (get_finger_states landmarks) = true)
    (hpinch : is_pinch_gesture landmarks = true) :
    (c.classify_gesture landmarks).gesture ≠ GestureType.PINCH ∧
    (is_open_palm (get_finger_states landmarks) = false →
      c.classify_gesture landmarks
        = ⟨GestureType.OK_SIGN, 0.8, "OK sign detected"⟩) := by
  have hm : (get_finger_states landmarks).middle = true := by
    cases hb : (get_finger_states landmarks).middle
    · unfold is_ok_sign at hok; simp [hb] at hok
    · rfl
  have hr : (get_finger_states landmarks).ring = true := by
    cases hb : (get_finger_states landmarks).ring
    · unfold is_ok_sign at hok; simp [hb] at hok
    · rfl
  have hp : (get_finger_states landmarks).pinky = true := by
    cases hb : (get_finger_states landmarks).pinky
    · unfold is_ok_sign at hok; simp [hb] at hok
    · rfl
  have h1 : is_pointing_gesture (get_finger_states landmarks) = false := by
    simp [is_pointing_gesture, hm]
  have h3 : is_fist (get_finger_states landmarks) = false := by
    simp [is_fist, hm]
  have h4 : is_thumbs_up (get_finger_states landmarks) = false := by
    simp [is_thumbs_up, hm]
  have h5 : is_peace_sign (get_finger_states landmarks) = false := by
    simp [is_peace_sign, hr]
  have hres : c.classify_gesture landmarks
      = analyze_gesture_pattern landmarks (get_finger_states landmarks) := by
    simp [GestureClassifier.classify_gesture, Nat.not_lt.mpr hlen]
  by_cases hop : is_open_palm (get_finger_states landmarks) = true
  · have ha : analyze_gesture_pattern landmarks (get_finger_states landmarks)
        = ⟨GestureType.OPEN_PALM, 0.9, "Open palm gesture detected"⟩ := by
      unfold analyze_gesture_pattern; simp [h1, hop]
    rw [hres, ha]
    exact ⟨by simp, fun hc => absurd hop (by simp [hc])⟩
  · have hop' : is_open_palm (get_finger_states landmarks) = false := by
      simpa using hop
    have ha : analyze_gesture_pattern landmarks (get_finger_states landmarks)
        = ⟨GestureType.OK_SIGN, 0.8, "OK sign detected"⟩ := by
      unfold analyze_gesture_pattern; simp [h1, hop', h3, h4, h5, hok]
    rw [hres, ha]
    exact ⟨by simp, fun _ => rfl⟩

/-- C2 amended witness: a concrete skeleton passing the OK_SIGN and
PINCH tests whose derived pattern is not open palm classifies to the
OK_SIGN record. -/
theorem ok_sign_priority_amended_witness :
    (21 ≤ okSignSkel.length) ∧
    is_ok_sign okSignSkel (get_finger_states okSignSkel) = true ∧
    is_pinch_gesture okSignSkel = true ∧
    GestureClassifier.classify_gesture ⟨0.7⟩ okSignSkel
      = ⟨GestureType.OK_SIGN, 0.8, "OK sign detected"⟩ :=
  ⟨by decide, by with_unfolding_all decide, by with_unfolding_all decide,
   (ok_sign_priority_amended ⟨0.7⟩ okSignSkel (by decide)
      (by with_unfolding_all decide) (by with_unfolding_all decide)).2
     (by with_unfolding_all decide)⟩

/-- Helper: in-bounds fallible indexing agrees with total indexing. -/
theorem nthOpt_eq (l : List Landmark) (i : Nat) (h : i < l.length) :
    nthOpt l i = some (nth l i) := by
  simp [nthOpt, nth, List.getD_eq_getElem?_getD, List.getElem?_eq_getElem h,
        List.get?_eq_getElem?]

/-- Helper: fallible `_is_thumb_extended` agrees with the total one when
landmarks 0, 1, 4 exist. -/
theorem is_thumb_extended_opt_eq (l : List Landmark)
    (h0 : nthOpt l 0 = some (nth l 0)) (h1 : nthOpt l 1 = some (nth l 1))
    (h4 : nthOpt l 4 = some (nth l 4)) :
    is_thumb_extended_opt l = some (is_thumb_extended l) := by
  unfold is_thumb_extended_opt is_thumb_extended
  simp [h0, h1, h4]

/-- Helper: fallible `_get_finger_states` agrees with the total one on a
skeleton of at least 21 landmarks. -/
theorem get_finger_states_opt_eq (l : List Landmark) (h : 21 ≤ l.length) :
    get_finger_states_opt l = some (get_finger_states l) := by
  unfold get_finger_states_opt get_finger_states
  simp [is_thumb_extended_opt_eq l (nthOpt_eq l 0 (by omega))
          (nthOpt_eq l 1 (by omega)) (nthOpt_eq l 4 (by omega)),
        nthOpt_eq l 5 (by omega), nthOpt_eq l 8 (by omega),
        nthOpt_eq l 9 (by omega), nthOpt_eq l 12 (by omega),
        nthOpt_eq l 13 (by omega), nthOpt_eq l 16 (by omega),
        nthOpt_eq l 17 (by omega), nthOpt_eq l 20 (by omega)]

/-- Helper: fallible `_is_ok_sign` agrees with the total one when
landmarks 4 and 8 exist. -/
theorem is_ok_sign_opt_eq (l : List Landmark) (fs : FingerStates)
    (h4 : nthOpt l 4 = some (nth l 4)) (h8 : nthOpt l 8 = some (nth l 8)) :
    is_ok_sign_opt l fs = some (is_ok_sign l fs) := by
  unfold is_ok_sign_opt is_ok_sign
  by_cases hc : (!fs.middle || !fs.ring || !fs.pinky) = true
  · simp [hc]
  · simp [hc, h4, h8]

/-- Helper: fallible `_is_pinch_gesture` agrees with the total one when
landmarks 4 and 8 exist. -/
theorem is_pinch_gesture_opt_eq (l : List Landmark)
    (h4 : nthOpt l 4 = some (nth l 4)) (h8 : nthOpt l 8 = some (nth l 8)) :
    is_pinch_gesture_opt l = some (is_pinch_gesture l) := by
  unfold is_pinch_gesture_opt is_pinch_gesture
  simp [h4, h8]

/-- Helper: fallible `_analyze_gesture_pattern` agrees with the total one
when landmarks 4 and 8 exist. -/
theorem analyze_opt_eq (l : List Landmark) (fs : FingerStates)
    (h4 : nthOpt l 4 = some (nth l 4)) (h8 : nthOpt l 8 = some (nth l 8)) :
    analyze_gesture_pattern_opt l fs
      = some (analyze_gesture_pattern l fs) := by
  unfold analyze_gesture_pattern_opt analyze_gesture_pattern
  by_cases p1 : is_pointing_gesture fs = true <;>
    by_cases p2 : is_open_palm fs = true <;>
      by_cases p3 : is_fist fs = true <;>
        by_cases p4 : is_thumbs_up fs = true <;>
          by_cases p5 : is_peace_sign fs = true <;>
            by_cases p6 : is_ok_sign l fs = true <;>
              by_cases p7 : is_pinch_gesture l = true <;>
                simp [p1, p2, p3, p4, p5, p6, p7,
                      is_ok_sign_opt_eq l fs h4 h8,
                      is_pinch_gesture_opt_eq l h4 h8]

/-- C8: `classify_gesture` modelled with genuinely fallible indexing
(`none` = a raised IndexError) never fails: on every input list it
returns `some` well-formed result, equal to the total classifier's
result — every index access is covered by the length-at-least-21 guard. -/
theorem classify_gesture_never_fails (c : GestureClassifier)
    (landmarks : List Landmark) :
    c.classify_gesture_opt landmarks
      = some (c.classify_gesture landmarks) := by
  by_cases hl : landmarks.length < 21
  · simp [GestureClassifier.classify_gesture_opt,
          GestureClassifier.classify_gesture, hl]
  · have h21 : 21 ≤ landmarks.length := Nat.not_lt.mp hl
    simp [GestureClassifier.classify_gesture_opt,
          GestureClassifier.classify_gesture, hl,
          get_finger_states_opt_eq landmarks h21,
          analyze_opt_eq landmarks (get_finger_states landmarks)
            (nthOpt_eq landmarks 4 (by omega))
            (nthOpt_eq landmarks 8 (by omega))]

/-- Helper: squared distances are nonnegative. -/
theorem sqDist_nonneg (p q : Landmark) : 0 ≤ sqDist p q := by
  unfold sqDist; positivity

/-- Helper: for nonnegative rationals, the source's comparison
`sqrt a > 1.2 * sqrt b` is equivalent to the embedding's squared
comparison `a > b * 1.2^2`. -/
theorem sqrt_gt_ratio_iff (a b : ℚ) (hb : 0 ≤ b) :
    (1.2 : ℝ) * Real.sqrt (b : ℝ) < Real.sqrt (a : ℝ) ↔
      b * (1.2 : ℚ) ^ 2 < a := by
  have hbR : (0 : ℝ) ≤ (b : ℝ) := by exact_mod_cast hb
  have hmul : (1.2 : ℝ) * Real.sqrt (b : ℝ)
      = Real.sqrt ((1.2 : ℝ) ^ 2 * (b : ℝ)) := by
    rw [Real.sqrt_mul (by norm_num : (0 : ℝ) ≤ (1.2 : ℝ) ^ 2) (b : ℝ),
        Real.sqrt_sq (by norm_num : (0 : ℝ) ≤ (1.2 : ℝ))]
  rw [hmul, Real.sqrt_lt_sqrt_iff (by positivity)]
  rw [show ((1.2 : ℝ) ^ 2 * (b : ℝ)) = ((b * (1.2 : ℚ) ^ 2 : ℚ) : ℝ) by
    push_cast; ring]
  exact_mod_cast Iff.rfl

/-- C5: finger-state derivation on a skeleton of at least 21 landmarks:
each of index, middle, ring, pinky is extended iff its tip landmark's
y-coordinate is strictly less than its MCP joint's y-coordinate, and the
thumb is extended iff the 2-D Euclidean distance from thumb tip
(landmark 4) to wrist (landmark 0) strictly exceeds 1.2 times the
distance from thumb MCP (landmark 1) to wrist; at equality the finger
counts as not extended. -/
theorem finger_state_derivation (l : List Landmark) (hlen : 21 ≤ l.length) :
    ((get_finger_states l).index = true ↔ (nth l 8).y < (nth l 5).y) ∧
    ((get_finger_states l).middle = true ↔ (nth l 12).y < (nth l 9).y) ∧
    ((get_finger_states l).ring = true ↔ (nth l 16).y < (nth l 13).y) ∧
    ((get_finger_states l).pinky = true ↔ (nth l 20).y < (nth l 17).y) ∧
    ((get_finger_states l).thumb = true ↔
      (1.2 : ℝ) * Real.sqrt ((sqDist (nth l 1) (nth l 0) : ℚ) : ℝ)
        < Real.sqrt ((sqDist (nth l 4) (nth l 0) : ℚ) : ℝ)) := by
  refine ⟨by simp [get_finger_states], by simp [get_finger_states],
          by simp [get_finger_states], by simp [get_finger_states], ?_⟩
  rw [sqrt_gt_ratio_iff _ _ (sqDist_nonneg (nth l 1) (nth l 0))]
  simp [get_finger_states, is_thumb_extended, gt_iff_lt]

/-- C5 witness: the derivation theorem applied to the concrete pointing
skeleton; its index finger is extended and the tip/MCP y-inequality
holds there. -/
theorem finger_state_derivation_witness :
    (21 ≤ pointSkel.length) ∧
    ((get_finger_states pointSkel).index = true ↔
      (nth pointSkel 8).y < (nth pointSkel 5).y) :=
  ⟨by decide, (finger_state_derivation pointSkel (by decide)).1⟩

/-- C10: the classification result depends only on the x- and
y-coordinates of landmarks 0 through 20: two skeletons of length at least
21 that agree there classify identically, regardless of z-coordinates,
landmarks beyond index 20, or the classifier's `confidence_threshold`. -/
theorem classify_depends_only_on_xy (c1 c2 : GestureClassifier)
    (l1 l2 : List Landmark) (h1 : 21 ≤ l1.length) (h2 : 21 ≤ l2.length)
    (hagree : ∀ i, i < 21 →
      (nth l1 i).x = (nth l2 i).x ∧ (nth l1 i).y = (nth l2 i).y) :
    c1.classify_gesture l1 = c2.classify_gesture l2 := by
  obtain ⟨e0x, e0y⟩ := hagree 0 (by omega)
  obtain ⟨e1x, e1y⟩ := hagree 1 (by omega)
  obtain ⟨e4x, e4y⟩ := hagree 4 (by omega)
  obtain ⟨e5x, e5y⟩ := hagree 5 (by omega)
  obtain ⟨e8x, e8y⟩ := hagree 8 (by omega)
  obtain ⟨e9x, e9y⟩ := hagree 9 (by omega)
  obtain ⟨e12x, e12y⟩ := hagree 12 (by omega)
  obtain ⟨e13x, e13y⟩ := hagree 13 (by omega)
  obtain ⟨e16x, e16y⟩ := hagree 16 (by omega)
  obtain ⟨e17x, e17y⟩ := hagree 17 (by omega)
  obtain ⟨e20x, e20y⟩ := hagree 20 (by omega)
  have hfs : get_finger_states l1 = get_finger_states l2 := by
    unfold get_finger_states is_thumb_extended sqDist
    simp only [e0x, e0y, e1x, e1y, e4x, e4y, e5y, e8y, e9y, e12y, e13y,
               e16y, e17y, e20y]
  have hd : sqDist (nth l1 4) (nth l1 8) = sqDist (nth l2 4) (nth l2 8) := by
    unfold sqDist
    rw [e4x, e4y, e8x, e8y]
  have hres1 : c1.classify_gesture l1
      = analyze_gesture_pattern l1 (get_finger_states l1) := by
    simp [GestureClassifier.classify_gesture, Nat.not_lt.mpr h1]
  have hres2 : c2.classify_gesture l2
      = analyze_gesture_pattern l2 (get_finger_states l2) := by
    simp [GestureClassifier.classify_gesture, Nat.not_lt.mpr h2]
  rw [hres1, hres2, hfs]
  unfold analyze_gesture_pattern is_ok_sign is_pinch_gesture
  rw [hd]

/-- C10 witness: the pointing skeleton and its variant with shifted
z-coordinates, an extra 22nd landmark, and a different classifier
threshold classify identically. -/
theorem classify_depends_only_on_xy_witness :
    (21 ≤ pointSkel.length) ∧ (21 ≤ pointSkelAlt.length) ∧
    GestureClassifier.classify_gesture ⟨0.7⟩ pointSkel
      = GestureClassifier.classify_gesture ⟨0.3⟩ pointSkelAlt :=
  ⟨by decide, by decide,
   classify_depends_only_on_xy ⟨0.7⟩ ⟨0.3⟩ pointSkel pointSkelAlt
     (by decide) (by decide) (by with_unfolding_all decide)⟩

end GestureRec
